import Mathlib

/-!
Verification of the gsftp dual-pane file manager against its specification.

The development shallowly embeds the listing, navigation, transfer and
configuration-parsing code of the repository. Rust machine behaviour is made
explicit: a Rust panic (an unwrap of an Err or None, or an out-of-bounds index)
is modelled by a none result; usize arithmetic that can wrap is taken modulo
2 ^ 64 (release-build semantics); fallible I/O operations are parametrised by
their injected outcomes, so that a theorem can quantify over every possible
success/failure pattern of the environment.
-/

/-- Byte value of a character after ASCII lowercasing; models the effect of the
Rust to_lowercase call on the ASCII names compared by the sort (for ASCII input
Unicode lowercasing and this map agree). -/
def lower_byte (n : Nat) : Nat := if 65 ≤ n ∧ n ≤ 90 then n + 32 else n

/-- Case-insensitive comparison key of a string: its character codes after
lowercasing. Models the s.to_lowercase() keys used by sort_and_stringify in
src/app_utils.rs line 89. -/
def key_ci (s : String) : List Nat := s.data.map (fun c => lower_byte c.toNat)

/-- Case-sensitive comparison key of a string: its raw character codes. Models
the Ord instance of Rust String (lexicographic byte order; on UTF-8, byte order
coincides with code-point order) used by the plain sort() in src/sftp.rs
line 95. -/
def key_cs (s : String) : List Nat := s.data.map Char.toNat

/-- Lexicographic less-or-equal on key lists; the order underlying both Rust
comparators. -/
def bytes_le : List Nat → List Nat → Bool
  | [], _ => true
  | _ :: _, [] => false
  | a :: as, b :: bs => if a < b then true else if b < a then false else bytes_le as bs

/-- Models the Rust starts_with call with the character dot. -/
def starts_with_dot (s : String) : Bool :=
  match s.data with
  | [] => false
  | c :: _ => c == '.'

/-- Embeds sort_and_stringify from src/app_utils.rs lines 70 to 91. The input
list models the file names extracted from the directory entries (the Rust code
maps each PathBuf through file_name and to_str, defaulting to the empty string,
then filters empties, filters hidden names, and finally runs the stable
sort_by on lowercased keys). Insertion sort is stable and agrees with any
stable sort for a total preorder, hence with the Rust slice sort. -/
def sort_and_stringify (names : List String) (show_hidden : Bool) : List String :=
  List.insertionSort (fun s1 s2 => bytes_le (key_ci s1) (key_ci s2) = true)
    ((names.filter (fun s => !(s == ""))).filter
      (fun s => if !show_hidden then !(starts_with_dot s) else true))

/-- Embeds read_dir_contents from src/app_utils.rs lines 61 to 68. The argument
is the outcome of fs::read_dir on the working directory: none models an Err, on
which the Rust code calls unwrap and panics (a none result); some entries
models the per-entry results, where an inner none is an errored entry that the
Rust code replaces by a default PathBuf, which then fails the exists() filter
and is dropped. -/
def read_dir_contents (readdir : Option (List (Option String))) : Option (List String) :=
  readdir.map (fun entries => entries.filterMap id)

/-- Embeds the local refresh path AppContent::update_local from
src/app_utils.rs lines 50 to 52: read_dir_contents composed with
sort_and_stringify. A none result models a panic of the refresh. -/
def update_local (readdir : Option (List (Option String))) (show_hidden : Bool) :
    Option (List String) :=
  (read_dir_contents readdir).map (fun names => sort_and_stringify names show_hidden)

/-- The filtering and sorting stage of ls from src/sftp.rs lines 85 to 97,
applied to the entry names returned by readdir: hidden names are dropped unless
show_hidden, and the names are sorted with the case-sensitive Ord of Rust
String via the plain stable sort(). -/
def sftp_sort (names : List String) (show_hidden : Bool) : List String :=
  List.insertionSort (fun s1 s2 => bytes_le (key_cs s1) (key_cs s2) = true)
    (names.filter (fun s => if show_hidden then true else !(starts_with_dot s)))

/-- Embeds ls from src/sftp.rs lines 85 to 97. The argument is the outcome of
sess.sftp() followed by readdir(buf): none models an Err of either call, on
which the Rust code unwraps and panics (a none result); some names models the
entry file names in enumeration order. -/
def sftp_ls (readdir : Option (List String)) (show_hidden : Bool) : Option (List String) :=
  readdir.map (fun names => sftp_sort names show_hidden)

/-- The two panes; embeds ActiveState from src/app_utils.rs lines 96 to 99. -/
inductive ActivePane where
  | Local
  | Remote
deriving DecidableEq

/-- The navigation state mutated by the event loop of src/main.rs: the tui
ListState selection of each pane (the app keeps it Some, but the type is
Option as in tui) plus the active pane. -/
structure NavState where
  localSel : Option Nat
  remoteSel : Option Nat
  active : ActivePane
deriving DecidableEq

/-- The four cursor-movement keys dispatched in src/main.rs lines 120 to 165:
j/Down, k/Up, g/t, and b. -/
inductive NavCmd where
  | down
  | up
  | top
  | bottom
deriving DecidableEq

/-- Embeds the down handler of src/main.rs lines 120 to 135 for one pane: if
the listing is empty the handler continues (selection unchanged); otherwise it
unwraps the current selection (none models the panic of unwrap) and selects
min (curr + 1) (len - 1). -/
def sel_down (content : List String) (sel : Option Nat) : Option (Option Nat) :=
  if content.isEmpty then some sel
  else
    match sel with
    | none => none
    | some curr => some (some (min (curr + 1) (content.length - 1)))

/-- Embeds the up handler of src/main.rs lines 137 to 148 for one pane: no
emptiness guard; it unwraps the current selection (none models the panic) and
selects curr - 1 when curr is positive, otherwise curr. -/
def sel_up (sel : Option Nat) : Option (Option Nat) :=
  match sel with
  | none => none
  | some curr => some (some (if curr > 0 then curr - 1 else curr))

/-- Embeds the g/t handler of src/main.rs lines 150 to 153 for one pane:
unconditionally selects index 0. -/
def sel_top : Option (Option Nat) :=
  some (some 0)

/-- Embeds the b handler of src/main.rs lines 156 to 165 for one pane: it
selects content.len() - 1 with usize arithmetic and no emptiness guard. On an
empty listing the subtraction wraps to 2 ^ 64 - 1 in a release build (in a
debug build it panics); the model uses the wrapping release semantics. -/
def sel_bottom (content : List String) : Option (Option Nat) :=
  some (some ((content.length + (2 ^ 64 - 1)) % 2 ^ 64))

/-- The cursor-movement dispatch of src/main.rs lines 120 to 165: the command
is applied to the selection of the active pane against that pane listing; the
other pane is untouched. A none result models a panic of the handler. -/
def nav_step (cmd : NavCmd) (localContent remoteContent : List String) (s : NavState) :
    Option NavState :=
  match s.active with
  | ActivePane.Local =>
    let r := match cmd with
      | NavCmd.down => sel_down localContent s.localSel
      | NavCmd.up => sel_up s.localSel
      | NavCmd.top => sel_top
      | NavCmd.bottom => sel_bottom localContent
    r.map (fun sel => ⟨sel, s.remoteSel, s.active⟩)
  | ActivePane.Remote =>
    let r := match cmd with
      | NavCmd.down => sel_down remoteContent s.remoteSel
      | NavCmd.up => sel_up s.remoteSel
      | NavCmd.top => sel_top
      | NavCmd.bottom => sel_bottom remoteContent
    r.map (fun sel => ⟨s.localSel, sel, s.active⟩)

/-- The application state consumed by Transfer::upload and Transfer::download
in src/file_transfer.rs lines 49 to 86: the two working directories as segment
lists, the two listings, and the two selections. -/
structure AppModel where
  bufLocal : List String
  bufRemote : List String
  contentLocal : List String
  contentRemote : List String
  selLocal : Option Nat
  selRemote : Option Nat

/-- The path snapshot held by a Transfer value: source and destination paths as
segment lists, owned by value (the Rust struct stores owned PathBufs, so later
mutation of the App cannot alter them). -/
structure TransferReq where
  src : List String
  dst : List String

/-- Embeds Transfer::upload from src/file_transfer.rs lines 49 to 66: it
unwraps the local selection (none models the panic of unwrap), indexes the
local listing at it (an out-of-range index, in particular any index into an
empty listing, models the Rust index panic as none), and joins the selected
name onto both working directories. -/
def Transfer_upload (app : AppModel) : Option TransferReq :=
  match app.selLocal with
  | none => none
  | some i =>
    match app.contentLocal.get? i with
    | none => none
    | some name => some ⟨app.bufLocal ++ [name], app.bufRemote ++ [name]⟩

/-- Embeds Transfer::download from src/file_transfer.rs lines 69 to 86,
symmetric to Transfer_upload with the remote listing and selection. -/
def Transfer_download (app : AppModel) : Option TransferReq :=
  match app.selRemote with
  | none => none
  | some i =>
    match app.contentRemote.get? i with
    | none => none
    | some name => some ⟨app.bufRemote ++ [name], app.bufLocal ++ [name]⟩

/-- Injected outcomes of the I/O steps of download_file in
src/file_transfer.rs lines 116 to 126: the result of fs::File::create on the
destination, of the stat call on the remote file, of read_to_end on the remote
file, and of write_all on the local file. -/
structure DownloadEnv where
  create_ok : Bool
  stat_res : Option Nat
  read_res : Option (List Nat)
  write_ok : Bool

/-- Embeds download_file from src/file_transfer.rs lines 116 to 126. The value
ok none means the destination could not be created and the file was silently
skipped; ok (some bytes) means bytes were written to the destination; error
models the question-mark propagation of a stat, read or write failure. -/
def download_file (env : DownloadEnv) : Except String (Option (List Nat)) :=
  if !env.create_ok then Except.ok none
  else
    match env.stat_res with
    | none => Except.error "stat"
    | some _ =>
      match env.read_res with
      | none => Except.error "read"
      | some buf => if env.write_ok then Except.ok (some buf) else Except.error "write"

/-- Injected outcomes of the I/O steps of upload_file in src/file_transfer.rs
lines 161 to 168: the result of sftp.create on the destination, of fs::read on
the local source, and of write_all on the remote file. -/
structure UploadEnv where
  create_ok : Bool
  read_res : Option (List Nat)
  write_ok : Bool

/-- Embeds upload_file from src/file_transfer.rs lines 161 to 168. A failed
sftp.create silently skips the file (ok none). A failed fs::read is replaced
by the default empty buffer through unwrap_or_default, so the function then
writes an empty destination file and reports success. Only a write_all failure
propagates through the question mark as an error. -/
def upload_file (env : UploadEnv) : Except String (Option (List Nat)) :=
  if !env.create_ok then Except.ok none
  else
    let buf := env.read_res.getD []
    if env.write_ok then Except.ok (some buf) else Except.error "write"

/-- A directory tree on either backend: regular files with byte content,
symbolic links (the target string is carried but never read by the transfer
code), and directories with named entries in enumeration order. -/
inductive FsTree where
  | file (content : List Nat)
  | link (target : String)
  | dir (entries : List (String × FsTree))

/-- Whether a node is a symbolic link, as reported by stat file_type
is_symlink on the remote side and by Path::is_symlink locally. -/
def isLink : FsTree → Bool
  | FsTree.link _ => true
  | _ => false

/-- Embeds the entry loop of download_directory_recursive from
src/file_transfer.rs lines 128 to 146 in the environment in which every remote
read and local create/write succeeds and the destination tree is initially
absent (so each inner fs::create_dir succeeds): symbolic links are skipped by
the continue, directories recurse, and every other entry is copied as a file.
The result is the destination tree produced under the source entries. -/
def downloadEntries : List (String × FsTree) → List (String × FsTree)
  | [] => []
  | (_, FsTree.link _) :: rest => downloadEntries rest
  | (n, FsTree.dir es) :: rest => (n, FsTree.dir (downloadEntries es)) :: downloadEntries rest
  | (n, FsTree.file c) :: rest => (n, FsTree.file c) :: downloadEntries rest

/-- Embeds the entry loop of upload_directory_recursive from
src/file_transfer.rs lines 170 to 203 in the environment in which the remote
mkdir issued over the exec channel and every read/create/write succeed: the
loop over read_dir_contents skips symbolic links via the continue, recurses
into directories, and uploads every other entry as a file (the opendir retry
loop of lines 190 to 197 only delays and never changes the result). -/
def uploadEntries : List (String × FsTree) → List (String × FsTree)
  | [] => []
  | (_, FsTree.link _) :: rest => uploadEntries rest
  | (n, FsTree.dir es) :: rest => (n, FsTree.dir (uploadEntries es)) :: uploadEntries rest
  | (n, FsTree.file c) :: rest => (n, FsTree.file c) :: uploadEntries rest

/-- Specification-side description of a recursive transfer, written from the
spec wording: skip symbolic links entirely (no traversal, no copy), recurse
into subdirectories, copy files unchanged. Both code directions are compared
against this definition. -/
def specPrune : List (String × FsTree) → List (String × FsTree)
  | [] => []
  | (n, t) :: rest =>
    if isLink t then specPrune rest
    else
      match t with
      | FsTree.dir es => (n, FsTree.dir (specPrune es)) :: specPrune rest
      | t2 => (n, t2) :: specPrune rest

/-- Decides that a produced tree contains no symbolic link anywhere. -/
def linkFree : List (String × FsTree) → Bool
  | [] => true
  | (_, FsTree.link _) :: _ => false
  | (_, FsTree.dir es) :: rest => linkFree es && linkFree rest
  | (_, FsTree.file _) :: rest => linkFree rest

/-- Embeds download_directory_recursive from src/file_transfer.rs lines 128 to
146 at its top-level call, with the outcome of fs::create_dir(to) injected:
fs::create_dir fails in particular when the destination directory already
exists, and the Rust code guards the whole listing-and-copy body behind
is_ok(), falling through to Ok(()) when the creation failed. In the modelled
environment every subsequent operation succeeds, so the function always
returns ok, together with the destination entries it produced. -/
def download_directory_recursive (create_ok : Bool) (entries : List (String × FsTree)) :
    Except String (List (String × FsTree)) :=
  Except.ok (if create_ok then downloadEntries entries else [])

/-- Resolves a path (a list of segments) in a tree, as the SFTP server would. -/
def lookup_node : FsTree → List String → Option FsTree
  | t, [] => some t
  | FsTree.dir es, n :: rest =>
    match es.lookup n with
    | some t => lookup_node t rest
    | none => none
  | _, _ :: _ => none

/-- The remote listing of a path against a modelled server tree: readdir
succeeds exactly on a directory path, returning its entry names (then filtered
and sorted by ls as in src/sftp.rs); on a file, link or missing path readdir
returns an Err, on which ls unwraps and panics (a none result). -/
def remote_ls (fs : FsTree) (path : List String) (show_hidden : Bool) : Option (List String) :=
  match lookup_node fs path with
  | some (FsTree.dir es) => some (sftp_sort (es.map Prod.fst) show_hidden)
  | _ => none

/-- The display form of an absolute path built by pushing name segments onto a
root PathBuf, as compared by the as_os_str call in src/app.rs line 90. -/
def path_string (path : List String) : String :=
  path.foldl (fun acc seg => acc ++ "/" ++ seg) ""

/-- The remote-pane state read and written by cd_into_remote: working
directory, current listing and selection. -/
structure RemotePane where
  buf : List String
  content : List String
  sel : Option Nat

/-- Embeds cd_into_remote from src/app.rs lines 83 to 98: an empty listing
returns immediately; otherwise the selected name (selection defaulted to 0 by
unwrap_or, the indexing panicking on an out-of-range index) is pushed onto the
working directory and the pushed path is re-listed at once through ls, which
panics when readdir fails there, in particular whenever the pushed path is a
regular file. Only if that listing succeeds does the code apply its heuristic
directory check: it string-compares the first listed entry against the pushed
path, popping back and re-listing the original directory on a match, and
otherwise keeps the pushed directory and resets the selection to 0. A none
result models a panic. -/
def cd_into_remote (fs : FsTree) (show_hidden : Bool) (p : RemotePane) : Option RemotePane :=
  if p.content.isEmpty then some p
  else
    match p.content.get? (p.sel.getD 0) with
    | none => none
    | some name =>
      let pushed := p.buf ++ [name]
      match remote_ls fs pushed show_hidden with
      | none => none
      | some listed =>
        if (listed.head?.getD "") == path_string pushed then
          match remote_ls fs p.buf show_hidden with
          | none => none
          | some orig => some ⟨p.buf, orig, p.sel⟩
        else some ⟨pushed, listed, some 0⟩

/-- Splits a character list at every occurrence of the separator, keeping
empty chunks; the semantics of the Rust str split iterator. -/
def splitChars (sep : Char) : List Char → List (List Char)
  | [] => [[]]
  | c :: cs =>
    let r := splitChars sep cs
    if c == sep then [] :: r
    else
      match r with
      | [] => [[c]]
      | chunk :: rest => (c :: chunk) :: rest

/-- Models the Rust split call on a string with a character separator,
collected into a vector of substrings. -/
def split_at (sep : Char) (s : String) : List String :=
  (splitChars sep s.data).map (fun cs => ⟨cs⟩)

/-- Numeric value of a digit list, most significant digit first. -/
def digitsVal (cs : List Char) : Nat :=
  cs.foldl (fun acc c => acc * 10 + (c.toNat - 48)) 0

/-- Whether a dotted-quad component is accepted by the Rust Ipv4Addr parser:
one to three digits, no leading zero except the single digit 0, and a value of
at most 255. -/
def octet_ok (s : String) : Bool :=
  let cs := s.data
  decide (1 ≤ cs.length) && decide (cs.length ≤ 3) && cs.all (fun c => c.isDigit)
    && (cs.length == 1 || (cs.headD '0') != '0')
    && decide (digitsVal cs ≤ 255)

/-- Whether the host string parses as a literal IPv4 address, as decided by
the parse call to Ipv4Addr in src/config.rs line 96; to_string of the parsed
address reproduces the canonical input unchanged. -/
def ipv4_ok (s : String) : Bool :=
  match split_at '.' s with
  | [a, b, c, d] => octet_ok a && octet_ok b && octet_ok c && octet_ok d
  | _ => false

/-- Embeds the destination parsing of Config::from in src/config.rs lines 89
to 107. The DESTINATION argument is split on the at sign; anything other than
exactly two parts exits the process (none). A host that parses as a literal
IPv4 address is used directly. Otherwise lookup models dns_lookup::lookup_host
(none is a lookup Err, turned into an empty vector by unwrap_or_default); the
Rust code then takes get(1), the second resolved address, and exits with a
resolution diagnostic when that is absent. The result is the user and the
address put into the Config. -/
def config_from (dest : String) (lookup : String → Option (List String)) :
    Option (String × String) :=
  match split_at '@' dest with
  | [user, host] =>
    if ipv4_ok host then some (user, host)
    else
      match ((lookup host).getD []).get? 1 with
      | none => none
      | some addr => some (user, addr)
  | _ => none

/-!
Helper lemmas shared by the claim theorems.
-/

theorem bytes_le_total : ∀ as bs, bytes_le as bs = true ∨ bytes_le bs as = true := by
  intro as
  induction as with
  | nil => intro bs; left; rfl
  | cons a as ih =>
    intro bs
    cases bs with
    | nil => right; rfl
    | cons b bs =>
      simp only [bytes_le]
      rcases Nat.lt_trichotomy a b with h | h | h
      · left; simp [h]
      · subst h
        rcases ih bs with h2 | h2
        · left; simp [h2]
        · right; simp [h2]
      · right; simp [h, Nat.lt_asymm h]

theorem bytes_le_trans : ∀ as bs cs, bytes_le as bs = true → bytes_le bs cs = true →
    bytes_le as cs = true := by
  intro as
  induction as with
  | nil => intro bs cs _ _; rfl
  | cons a as ih =>
    intro bs cs h1 h2
    cases bs with
    | nil => simp [bytes_le] at h1
    | cons b bs =>
      cases cs with
      | nil => simp [bytes_le] at h2
      | cons c cs =>
        simp only [bytes_le] at h1 h2 ⊢
        split_ifs at h1 h2 ⊢ <;>
          first
          | rfl
          | omega
          | exact ih bs cs h1 h2

theorem dl_eq_spec : ∀ es, downloadEntries es = specPrune es := by
  intro es
  induction es using downloadEntries.induct <;> simp_all [downloadEntries, specPrune, isLink]

theorem ul_eq_spec : ∀ es, uploadEntries es = specPrune es := by
  intro es
  induction es using uploadEntries.induct <;> simp_all [uploadEntries, specPrune, isLink]

theorem linkFree_spec : ∀ es, linkFree (specPrune es) = true := by
  intro es
  induction es using specPrune.induct with
  | case1 => simp [specPrune, linkFree]
  | case2 n t rest hlink ih =>
    rw [specPrune.eq_def]
    simp [hlink, ih]
  | case3 n rest es hlink ih1 ih2 =>
    rw [specPrune.eq_def]
    simp_all [linkFree, isLink]
  | case4 n rest t2 hdir hlink ih =>
    cases t2 with
    | file c =>
      rw [specPrune.eq_def]
      simp_all [linkFree, isLink]
    | link tgt => simp_all [isLink]
    | dir es => exact absurd rfl (hdir es)

/-!
Claim theorems.
-/

/-- C1: the claim states that a directory-read failure on a refresh (periodic
re-list, post-navigation re-list, or the re-list after toggling hidden files)
degrades the pane listing to an empty or previous list and never panics nor
aborts the event loop. The code instead unwraps the failed read on both
backends: this theorem evaluates both refresh paths at a failed directory read
and shows that the refresh panics (a none result), which unwinds the event
loop thread. -/
theorem refresh_read_failure_panics :
    update_local none true = none ∧ update_local none false = none
    ∧ sftp_ls none true = none ∧ sftp_ls none false = none :=
  ⟨rfl, rfl, rfl, rfl⟩

/-- C3: the claim states that triggering a transfer with an empty active-pane
listing is a panic-free no-op. The code unwraps the selection and indexes the
empty listing: this theorem evaluates both transfer constructors at an empty
active listing (with the selection at Some 0, as the app maintains it) and
shows they panic (a none result). -/
theorem transfer_trigger_empty_panics :
    Transfer_upload ⟨["home", "me"], ["home", "you"], [], ["z"], some 0, some 0⟩ = none
    ∧ Transfer_download ⟨["home", "me"], ["home", "you"], ["z"], [], some 0, some 0⟩ = none :=
  ⟨rfl, rfl⟩

/-- C5 counterexample: the claim states that a source-read failure occurring
after the destination was successfully created propagates as a TransferError.
In the upload direction the code replaces a failed fs::read by an empty buffer
via unwrap_or_default: with the creation succeeded, the read failed and the
write succeeded, upload_file returns success and writes an empty file instead
of an error. -/
theorem upload_read_swallowed_counterexample :
    upload_file ⟨true, none, true⟩ = Except.ok (some [])
    ∧ upload_file ⟨true, none, true⟩ ≠ Except.error "write" :=
  ⟨rfl, fun h => Except.noConfusion h⟩

/-- C5 amended: during a single-file copy, a failed destination creation
silently skips the file in both directions; in the download direction any
stat, read or write failure after the creation propagates as an error; in the
upload direction only a write failure propagates, while a failed source read
after a successful creation is swallowed and an empty destination file is
written with a success result. -/
theorem file_copy_error_amended :
    (∀ s r w, download_file ⟨false, s, r, w⟩ = Except.ok none)
    ∧ (∀ r w, download_file ⟨true, none, r, w⟩ = Except.error "stat")
    ∧ (∀ n w, download_file ⟨true, some n, none, w⟩ = Except.error "read")
    ∧ (∀ n buf, download_file ⟨true, some n, some buf, false⟩ = Except.error "write")
    ∧ (∀ n buf, download_file ⟨true, some n, some buf, true⟩ = Except.ok (some buf))
    ∧ (∀ r w, upload_file ⟨false, r, w⟩ = Except.ok none)
    ∧ (∀ r, upload_file ⟨true, r, false⟩ = Except.error "write")
    ∧ (∀ buf, upload_file ⟨true, some buf, true⟩ = Except.ok (some buf))
    ∧ upload_file ⟨true, none, true⟩ = Except.ok (some []) :=
  ⟨fun _ _ _ => rfl, fun _ _ => rfl, fun _ _ => rfl, fun _ _ => rfl, fun _ _ => rfl,
    fun _ _ => rfl, fun _ => rfl, fun _ => rfl, rfl⟩

/-- C6 counterexample: the claim states that downloading a remote directory
tolerates a pre-existing local destination directory and then lists and copies
the remote entries into it. When the destination already exists fs::create_dir
fails, and the code skips the entire listing-and-copy body while still
reporting success: a remote directory holding one file produces no entries at
all. -/
theorem download_preexisting_counterexample :
    download_directory_recursive false [("a.txt", FsTree.file [104, 105])] = Except.ok []
    ∧ ([] : List (String × FsTree)) ≠ [("a.txt", FsTree.file [104, 105])] :=
  ⟨rfl, by simp⟩

/-- C6 amended: downloading a remote directory creates the local destination
directory and copies the non-symlink entries (recursing into subdirectories)
only when that creation succeeds, which requires the destination not to exist
beforehand; when fs::create_dir fails, in particular on a pre-existing
destination, the whole listing and copy is silently skipped and the transfer
still reports success. -/
theorem download_directory_amended :
    (∀ es, download_directory_recursive true es = Except.ok (specPrune es))
    ∧ (∀ es, download_directory_recursive false es = Except.ok []) := by
  refine ⟨fun es => ?_, fun es => rfl⟩
  simp [download_directory_recursive, dl_eq_spec]

/-- C8: for every recursive directory transfer in either direction, every
symbolic-link entry is skipped entirely (neither traversed nor copied), so the
destination tree produced from the source entries equals the source with all
symbolic links recursively pruned (the specification-side description), in
particular it contains the same regular files and subdirectories, contains no
symbolic link, and the recursion never follows a link target. -/
theorem symlink_skip_transfer : ∀ entries,
    downloadEntries entries = specPrune entries
    ∧ uploadEntries entries = specPrune entries
    ∧ linkFree (downloadEntries entries) = true
    ∧ linkFree (uploadEntries entries) = true := by
  intro entries
  refine ⟨dl_eq_spec entries, ul_eq_spec entries, ?_, ?_⟩
  · rw [dl_eq_spec]
    exact linkFree_spec entries
  · rw [ul_eq_spec]
    exact linkFree_spec entries

/-- C7: the claim states that entering a selected non-directory entry is a
no-op for the working directory, and that the remote pane decides
directory-ness by probing (attempting a directory open and treating failure as
not-a-directory) rather than by string comparison against a listed entry. The
code instead pushes the candidate and immediately re-lists it, unwrapping the
readdir result, and only then applies a string comparison of the first listed
entry against the pushed path: this theorem evaluates cd_into_remote on a
remote tree where the selected entry file.txt is a regular file and shows the
call panics (a none result) instead of no-opping. -/
theorem cd_into_remote_file_panics :
    cd_into_remote
      (FsTree.dir [("home", FsTree.dir [("u", FsTree.dir [("file.txt", FsTree.file [104])])])])
      false ⟨["home", "u"], ["file.txt"], some 0⟩ = none := by
  simp [cd_into_remote, remote_ls, lookup_node, List.lookup]

/-- C2 counterexample: the claim states that on an empty active listing every
cursor-movement command is a panic-free no-op. Pressing b (jump to bottom) on
an empty listing computes len - 1 on a usize of value 0: in a release build
this wraps and selects index 2 ^ 64 - 1 (in a debug build it panics), so the
selection changes and the command is not a no-op. -/
theorem nav_empty_counterexample :
    nav_step NavCmd.bottom [] [] ⟨some 0, some 0, ActivePane.Local⟩
      = some ⟨some (2 ^ 64 - 1), some 0, ActivePane.Local⟩
    ∧ (⟨some (2 ^ 64 - 1), some 0, ActivePane.Local⟩ : NavState)
      ≠ ⟨some 0, some 0, ActivePane.Local⟩ :=
  ⟨rfl, by decide⟩

/-- C2 amended: for a non-empty listing with an in-range selection every
cursor-movement command keeps the selection in range; on an empty listing only
move-down is a guarded no-op, while move-up decrements a stale non-zero
selection (and keeps a zero selection), jump-top always selects 0, and
jump-bottom wraps len - 1 to 2 ^ 64 - 1 in a release build (panicking in a
debug build), selecting an out-of-range index. -/
theorem nav_bounds_amended :
    (∀ (c : List String) (i : Nat), i < c.length →
      sel_down c (some i) = some (some (min (i + 1) (c.length - 1)))
      ∧ min (i + 1) (c.length - 1) < c.length)
    ∧ (∀ (c : List String) (i : Nat), i < c.length →
      sel_up (some i) = some (some (if 0 < i then i - 1 else i))
      ∧ (if 0 < i then i - 1 else i) < c.length)
    ∧ sel_top = some (some 0)
    ∧ (∀ c : List String, c ≠ [] → c.length < 2 ^ 64 →
      sel_bottom c = some (some (c.length - 1)) ∧ c.length - 1 < c.length)
    ∧ (∀ sel, sel_down [] sel = some sel)
    ∧ (∀ i : Nat, sel_up (some (i + 1)) = some (some i))
    ∧ sel_up (some 0) = some (some 0)
    ∧ sel_bottom [] = some (some (2 ^ 64 - 1)) := by
  refine ⟨?_, ?_, rfl, ?_, fun sel => rfl, ?_, rfl, rfl⟩
  · intro c i h
    cases c with
    | nil => exact absurd h (by simp)
    | cons a tl => exact ⟨rfl, Nat.lt_succ_of_le (Nat.min_le_right _ _)⟩
  · intro c i h
    exact ⟨rfl, by split_ifs <;> omega⟩
  · intro c h1 h2
    have hl : 0 < c.length := List.length_pos.mpr h1
    have h64 : (2 : Nat) ^ 64 = 18446744073709551616 := by norm_num
    have hm : (c.length + (2 ^ 64 - 1)) % 2 ^ 64 = c.length - 1 := by
      rw [h64] at h2 ⊢
      omega
    exact ⟨by rw [sel_bottom, hm], by omega⟩
  · intro i
    simp [sel_up, Nat.succ_pos]

/-- C2 amended witness: the amended theorem applied at a two-element listing
with selection 0 for move-down and at a one-element listing for
jump-to-bottom. -/
theorem nav_bounds_amended_witness :
    (sel_down ["a", "b"] (some 0) = some (some 1) ∧ (1 : Nat) < 2)
    ∧ (sel_bottom ["a"] = some (some 0) ∧ (0 : Nat) < 1) := by
  refine ⟨?_, ?_⟩
  · have h := nav_bounds_amended.1 ["a", "b"] 0 (by decide)
    exact ⟨h.1, h.2⟩
  · have h := nav_bounds_amended.2.2.2.1 ["a"] (by decide) (by decide)
    exact ⟨h.1, h.2⟩

/-- C4 counterexample: the claim states that both backends sort
case-insensitively, so that a directory holding .hidden, Banana and apple
lists as apple, Banana with hidden names excluded. The remote ls sorts with
the case-sensitive Ord of Rust String, under which every uppercase letter
precedes every lowercase letter: the remote listing is Banana, apple. -/
theorem listing_sort_counterexample :
    sftp_ls (some [".hidden", "Banana", "apple"]) false = some ["Banana", "apple"]
    ∧ sftp_ls (some [".hidden", "Banana", "apple"]) false ≠ some ["apple", "Banana"] := by
  exact ⟨by decide, by decide⟩

/-- C4 amended: the local listing is sorted case-insensitively (stably, ties
in enumeration order) and the remote listing case-sensitively by byte order;
both exclude names starting with a dot unless show_hidden is set, and both are
permutations of their filtered input. On the example directory the local
backend lists as the claim states, while the remote backend puts Banana before
apple. -/
theorem listing_sort_amended :
    (∀ (names : List String) (sh : Bool),
      List.Sorted (fun s1 s2 => bytes_le (key_ci s1) (key_ci s2) = true)
        (sort_and_stringify names sh))
    ∧ (∀ (names : List String) (sh : Bool),
      (sort_and_stringify names sh).Perm
        ((names.filter (fun s => !(s == ""))).filter
          (fun s => if !sh then !(starts_with_dot s) else true)))
    ∧ (∀ (names : List String) (sh : Bool),
      List.Sorted (fun s1 s2 => bytes_le (key_cs s1) (key_cs s2) = true)
        (sftp_sort names sh))
    ∧ (∀ (names : List String) (sh : Bool),
      (sftp_sort names sh).Perm
        (names.filter (fun s => if sh then true else !(starts_with_dot s))))
    ∧ sort_and_stringify [".hidden", "Banana", "apple"] false = ["apple", "Banana"]
    ∧ sort_and_stringify [".hidden", "Banana", "apple"] true = [".hidden", "apple", "Banana"]
    ∧ sort_and_stringify ["B", "a", "A"] true = ["a", "A", "B"]
    ∧ sftp_sort [".hidden", "Banana", "apple"] false = ["Banana", "apple"]
    ∧ sftp_sort [".hidden", "Banana", "apple"] true = [".hidden", "Banana", "apple"] := by
  refine ⟨?_, ?_, ?_, ?_, by decide, by decide, by decide, by decide, by decide⟩
  · intro names sh
    haveI : IsTotal String (fun s1 s2 => bytes_le (key_ci s1) (key_ci s2) = true) :=
      ⟨fun a b => bytes_le_total _ _⟩
    haveI : IsTrans String (fun s1 s2 => bytes_le (key_ci s1) (key_ci s2) = true) :=
      ⟨fun a b c h1 h2 => bytes_le_trans _ _ _ h1 h2⟩
    exact List.sorted_insertionSort _ _
  · intro names sh
    exact List.perm_insertionSort _ _
  · intro names sh
    haveI : IsTotal String (fun s1 s2 => bytes_le (key_cs s1) (key_cs s2) = true) :=
      ⟨fun a b => bytes_le_total _ _⟩
    haveI : IsTrans String (fun s1 s2 => bytes_le (key_cs s1) (key_cs s2) = true) :=
      ⟨fun a b c h1 h2 => bytes_le_trans _ _ _ h1 h2⟩
    exact List.sorted_insertionSort _ _
  · intro names sh
    exact List.perm_insertionSort _ _

/-- C9 counterexample: the claim states that the process exits exactly when
host resolution fails. First input: the host resolves to exactly one address,
yet the code takes get(1), the second address, finds none and exits. Second
input: a destination with two at signs, which splitting on the first at sign
would accept with everything after it as the host (here resolving to two
addresses), is instead rejected outright by the exactly-two-parts check. -/
theorem conn_parse_counterexample :
    config_from "alice@example.com" (fun _ => some ["93.184.216.34"]) = none
    ∧ config_from "alice@an@example.com" (fun _ => some ["1.2.3.4", "5.6.7.8"]) = none :=
  ⟨rfl, rfl⟩

/-- C9 amended: destination parsing splits on the at sign and exits unless the
result is exactly a user part and a host part (more than one at sign is
rejected, not split on the first); a host parsing as a literal IPv4 address is
used directly; otherwise the host is resolved and the process exits with a
diagnostic unless the lookup returns a second address, in which case that
second address in the returned list is used. -/
theorem conn_parse_amended :
    (∀ (d : String) (lookup : String → Option (List String)),
      (split_at '@' d).length ≠ 2 → config_from d lookup = none)
    ∧ (∀ (d u host : String) (lookup : String → Option (List String)),
      split_at '@' d = [u, host] →
      config_from d lookup =
        if ipv4_ok host then some (u, host)
        else (((lookup host).getD []).get? 1).map (fun a => (u, a))) := by
  constructor
  · intro d lookup hne
    unfold config_from
    cases hs : split_at '@' d with
    | nil => rfl
    | cons a t =>
      cases t with
      | nil => rfl
      | cons b t2 =>
        cases t2 with
        | nil => exact absurd (by simp [hs]) hne
        | cons c t3 => rfl
  · intro d u host lookup hs
    have hstep : config_from d lookup =
        (if ipv4_ok host then some (u, host)
         else
           match ((lookup host).getD []).get? 1 with
           | none => none
           | some addr => some (u, addr)) := by
      unfold config_from
      rw [hs]
    rw [hstep]
    cases hip : ipv4_ok host with
    | true => rfl
    | false =>
      cases hg : ((lookup host).getD []).get? 1 with
      | none => rfl
      | some addr => rfl

/-- C9 amended witness: the amended theorem applied to a destination without
an at sign and to a destination with a literal IPv4 host. -/
theorem conn_parse_amended_witness :
    config_from "nohost" (fun _ => none) = none
    ∧ config_from "a@1.2.3.4" (fun _ => none) = some ("a", "1.2.3.4") := by
  constructor
  · exact conn_parse_amended.1 "nohost" (fun _ => none) (by decide)
  · have h := conn_parse_amended.2 "a@1.2.3.4" "a" "1.2.3.4" (fun _ => none) (by decide)
    rw [h]
    decide

/-- C10: whenever a transfer request is actually created (the constructors
panic instead of returning one on an empty or stale selection), its source
path is the active working directory joined with the selected entry name and
its destination path is the other working directory joined with that same
name, so a transfer never renames; the request owns its two paths as values
inside the TransferReq, so later navigation cannot alter them. -/
theorem transfer_paths_snapshot (app : AppModel) (t : TransferReq) :
    (Transfer_upload app = some t →
      ∃ i name, app.selLocal = some i ∧ app.contentLocal.get? i = some name
        ∧ t.src = app.bufLocal ++ [name] ∧ t.dst = app.bufRemote ++ [name])
    ∧ (Transfer_download app = some t →
      ∃ i name, app.selRemote = some i ∧ app.contentRemote.get? i = some name
        ∧ t.src = app.bufRemote ++ [name] ∧ t.dst = app.bufLocal ++ [name]) := by
  constructor
  · intro h
    unfold Transfer_upload at h
    cases hsel : app.selLocal with
    | none =>
      simp only [hsel] at h
      exact Option.noConfusion h
    | some i =>
      simp only [hsel] at h
      cases hget : app.contentLocal.get? i with
      | none =>
        simp only [hget] at h
        exact Option.noConfusion h
      | some name =>
        simp only [hget] at h
        obtain rfl := Option.some_injective _ h
        exact ⟨i, name, rfl, hget, rfl, rfl⟩
  · intro h
    unfold Transfer_download at h
    cases hsel : app.selRemote with
    | none =>
      simp only [hsel] at h
      exact Option.noConfusion h
    | some i =>
      simp only [hsel] at h
      cases hget : app.contentRemote.get? i with
      | none =>
        simp only [hget] at h
        exact Option.noConfusion h
      | some name =>
        simp only [hget] at h
        obtain rfl := Option.some_injective _ h
        exact ⟨i, name, rfl, hget, rfl, rfl⟩

/-- C10 witness: the path-snapshot theorem applied to a concrete state whose
local listing holds a.txt, with the hypothesis of a created upload request
discharged by evaluation. -/
theorem transfer_paths_snapshot_witness :
    ∃ i name, (some 0 : Option Nat) = some i
      ∧ (["a.txt"] : List String).get? i = some name
      ∧ (["h", "a.txt"] : List String) = ["h"] ++ [name]
      ∧ (["r", "a.txt"] : List String) = ["r"] ++ [name] := by
  have h := (transfer_paths_snapshot ⟨["h"], ["r"], ["a.txt"], [], some 0, some 0⟩
      ⟨["h", "a.txt"], ["r", "a.txt"]⟩).1 rfl
  exact h
